import Mathlib

/-
Verification development for the system resource monitor client code.

The definitions below are shallow embeddings of the JavaScript/TypeScript
client code of the repository:

* `SystemMonitor.*`   embeds the `SystemMonitor` class (core monitor component:
  settings merge, the PATCH update path, the reconnect scheduler, and the
  reference semantics of the `settings` getter).
* `Popup.*`           embeds `SystemMonitorPopup.updateQuickStats`.
* `MonitorUI.*`       embeds `MonitorUI.updateMonitorDisplays` and
  `MonitorUI.updateProgressBar`.
* `SettingsManager.*` embeds the Chrome-extension `SettingsManager`
  (form collection, interval validation, save path).
* `SettingsPanel.*`   embeds the `SettingsPanel` class (default settings and
  the `loadSettings` path, including its constructor ordering).
* `WindowManager.*`   embeds `WindowManager.setWindowSize` and
  `WindowValidator.sanitizeBounds` / `WindowUtils.constrainToDisplay`.
* `Sampler.*`         models the backend sampler loop from the specification
  (the backend itself is not among the client sources).

JavaScript numbers are modelled as `ℚ` where fractional values occur and as
`Int`/`Nat` where the code only ever holds integers; JS objects become
structures; `undefined`/absent keys become `Option`; fallible operations
take an explicit outcome argument.
-/

namespace SystemResourceMonitor

namespace SystemMonitor

/-- The `SystemSettings` interface of the core monitor component. -/
structure SystemSettings where
  enable_cpu : Bool
  enable_ram : Bool
  enable_disk : Bool
  enable_gpu : Bool
  enable_vram : Bool
  enable_temperature : Bool
  update_interval : ℚ
  selected_drives : List String
  save : Bool
deriving DecidableEq, Repr

/-- `Partial<SystemSettings>`: every key optional (an absent key is `none`). -/
structure PartialSystemSettings where
  enable_cpu : Option Bool
  enable_ram : Option Bool
  enable_disk : Option Bool
  enable_gpu : Option Bool
  enable_vram : Option Bool
  enable_temperature : Option Bool
  update_interval : Option ℚ
  selected_drives : Option (List String)
  save : Option Bool
deriving DecidableEq, Repr

/-- The object-spread merge `{ ...currentSettings, ...newSettings }` used by
`SystemMonitor.updateSettings`: a key present in the partial update overrides
the current value, an absent key keeps it. -/
def mergeSettings (c : SystemSettings) (p : PartialSystemSettings) : SystemSettings where
  enable_cpu := p.enable_cpu.getD c.enable_cpu
  enable_ram := p.enable_ram.getD c.enable_ram
  enable_disk := p.enable_disk.getD c.enable_disk
  enable_gpu := p.enable_gpu.getD c.enable_gpu
  enable_vram := p.enable_vram.getD c.enable_vram
  enable_temperature := p.enable_temperature.getD c.enable_temperature
  update_interval := p.update_interval.getD c.update_interval
  selected_drives := p.selected_drives.getD c.selected_drives
  save := p.save.getD c.save

/-- The initial value of `this.currentSettings` in the `SystemMonitor` class. -/
def defaultCurrentSettings : SystemSettings where
  enable_cpu := true
  enable_ram := true
  enable_disk := true
  enable_gpu := true
  enable_vram := true
  enable_temperature := true
  update_interval := 1
  selected_drives := []
  save := false

/-- Outcome of the `fetch` PATCH request in `updateSettings`:
`ok success` is an HTTP-ok response whose JSON body carries `success`;
`httpError` is a non-ok response; `thrown` is a thrown/rejected request. -/
inductive FetchOutcome where
  | ok (success : Bool)
  | httpError
  | thrown
deriving DecidableEq, Repr

/-- `SystemMonitor.updateSettings`: merge the partial update into the current
settings and PATCH the result to the backend; only on an ok response whose
body reports `success` does the client commit the merged settings and return
`true`; on every other outcome the stored settings are left as they were and
`false` is returned. -/
def updateSettings (cur : SystemSettings) (p : PartialSystemSettings)
    (outcome : FetchOutcome) : SystemSettings × Bool :=
  match outcome with
  | .ok true => (mergeSettings cur p, true)
  | .ok false => (cur, false)
  | .httpError => (cur, false)
  | .thrown => (cur, false)

/-- `this.maxReconnectAttempts` of the `SystemMonitor` class. -/
def maxReconnectAttempts : Nat := 10

/-- The reconnect-attempt counter state of the `SystemMonitor` class. -/
structure ReconnectState where
  reconnectAttempts : Nat
deriving DecidableEq, Repr

/-- `SystemMonitor.scheduleReconnect`: when the attempt counter has reached
`maxReconnectAttempts` nothing further is scheduled; otherwise the counter is
incremented and a reconnect is scheduled after
`Math.min(1000 * Math.pow(2, attempts), 30000)` milliseconds.  The returned
option is the scheduled delay (`none` when no attempt is scheduled). -/
def scheduleReconnect (s : ReconnectState) : ReconnectState × Option Nat :=
  if s.reconnectAttempts ≥ maxReconnectAttempts then (s, none)
  else
    let attempts := s.reconnectAttempts + 1
    (⟨attempts⟩, some (min (1000 * 2 ^ attempts) 30000))

end SystemMonitor

end SystemResourceMonitor

namespace SystemResourceMonitor

namespace SystemMonitor

/- Reference semantics of the `settings` getter.  The getter returns
`{ ...this.currentSettings }`: a fresh object whose own properties are copied
from the internal object — including `selected_drives`, which is an array and
is therefore copied as a *reference* into the JS heap.  We model the heap of
arrays explicitly so that aliasing is observable. -/

/-- A JS heap of string arrays; `selected_drives` holds an index into it. -/
structure Heap where
  arrays : List (List String)
deriving DecidableEq, Repr

/-- A `SystemSettings` object as it lives on the JS heap: scalar fields are
stored inline, the `selected_drives` array is a reference. -/
structure SettingsObj where
  enable_cpu : Bool
  enable_ram : Bool
  enable_disk : Bool
  enable_gpu : Bool
  enable_vram : Bool
  enable_temperature : Bool
  update_interval : ℚ
  drivesRef : Nat
  save : Bool
deriving DecidableEq, Repr

/-- The `settings` getter `get settings() { return { ...this.currentSettings }; }`:
the spread copies every own property of the internal object, so the returned
object carries the same scalar values and the same array reference. -/
def settingsGetter (internal : SettingsObj) : SettingsObj :=
  { internal with }

/-- A mutation a caller can apply to a settings object it holds: assignment of
one of the object's own properties, or an in-place `push` on the
`selected_drives` array reached through the object's reference. -/
inductive Mutation where
  | setEnableCpu (b : Bool)
  | setEnableRam (b : Bool)
  | setEnableDisk (b : Bool)
  | setEnableGpu (b : Bool)
  | setEnableVram (b : Bool)
  | setEnableTemperature (b : Bool)
  | setUpdateInterval (q : ℚ)
  | setDrivesRef (r : Nat)
  | setSave (b : Bool)
  | pushDrive (s : String)
deriving DecidableEq, Repr

/-- Whether a mutation only assigns an own property of the object (as opposed
to mutating the shared array through the object's reference). -/
def Mutation.isOwnProperty : Mutation → Bool
  | .pushDrive _ => false
  | _ => true

/-- Apply one mutation to an object and the heap.  Own-property assignments
rewrite the object only; `pushDrive` appends to the heap array the object's
`drivesRef` points at. -/
def applyMutation : SettingsObj × Heap → Mutation → SettingsObj × Heap
  | (o, h), .setEnableCpu b => ({ o with enable_cpu := b }, h)
  | (o, h), .setEnableRam b => ({ o with enable_ram := b }, h)
  | (o, h), .setEnableDisk b => ({ o with enable_disk := b }, h)
  | (o, h), .setEnableGpu b => ({ o with enable_gpu := b }, h)
  | (o, h), .setEnableVram b => ({ o with enable_vram := b }, h)
  | (o, h), .setEnableTemperature b => ({ o with enable_temperature := b }, h)
  | (o, h), .setUpdateInterval q => ({ o with update_interval := q }, h)
  | (o, h), .setDrivesRef r => ({ o with drivesRef := r }, h)
  | (o, h), .setSave b => ({ o with save := b }, h)
  | (o, h), .pushDrive s =>
      (o, ⟨h.arrays.set o.drivesRef ((h.arrays.getD o.drivesRef []) ++ [s])⟩)

/-- Apply a sequence of mutations left to right. -/
def applyMutations (oh : SettingsObj × Heap) (ms : List Mutation) : SettingsObj × Heap :=
  ms.foldl applyMutation oh

/-- The configuration content an object denotes: its scalars together with the
array its reference points at. -/
def content (o : SettingsObj) (h : Heap) : SystemSettings where
  enable_cpu := o.enable_cpu
  enable_ram := o.enable_ram
  enable_disk := o.enable_disk
  enable_gpu := o.enable_gpu
  enable_vram := o.enable_vram
  enable_temperature := o.enable_temperature
  update_interval := o.update_interval
  selected_drives := h.arrays.getD o.drivesRef []
  save := o.save

/-- The internal `currentSettings` object at startup together with its heap:
`selected_drives` starts as the empty array at reference 0 (for the aliasing
counterexample we take the state after a drive has been recorded). -/
def internalObj : SettingsObj where
  enable_cpu := true
  enable_ram := true
  enable_disk := true
  enable_gpu := true
  enable_vram := true
  enable_temperature := true
  update_interval := 1
  drivesRef := 0
  save := false

/-- A heap in which the `selected_drives` array holds one drive. -/
def heap0 : Heap := ⟨[["C:"]]⟩

end SystemMonitor

namespace Popup

/-- One GPU entry of the status payload consumed by the popup.  A missing
`gpu_utilization` property is `none`. -/
structure GpuStat where
  gpu_utilization : Option ℚ
deriving DecidableEq, Repr

/-- The status payload rendered by `SystemMonitorPopup.updateQuickStats`.
A source key absent from the payload is `none` / the empty list. -/
structure StatusData where
  cpu_utilization : Option ℚ
  ram_used_percent : Option ℚ
  hdd_used_percent : Option ℚ
  gpus : List GpuStat
deriving DecidableEq, Repr

/-- JS `Number.prototype.toFixed(1)` as a numeric value: the number rounded to
one decimal place. -/
def toFixed1 (q : ℚ) : ℚ := (round (q * 10) : ℤ) / 10

/-- The numeric value the template `${data.cpu_utilization?.toFixed(1) || 0}%`
renders: when the key is present its rounded value (the `toFixed` string is
never falsy), when the key is absent `undefined?.toFixed(1)` is `undefined`
and `undefined || 0` renders `0`. -/
def quickStatCpu (d : StatusData) : ℚ :=
  match d.cpu_utilization with
  | some v => toFixed1 v
  | none => 0

/-- Value of the `${data.ram_used_percent?.toFixed(1) || 0}%` stat. -/
def quickStatRam (d : StatusData) : ℚ :=
  match d.ram_used_percent with
  | some v => toFixed1 v
  | none => 0

/-- Value of the `${data.hdd_used_percent?.toFixed(1) || 0}%` stat. -/
def quickStatHdd (d : StatusData) : ℚ :=
  match d.hdd_used_percent with
  | some v => toFixed1 v
  | none => 0

/-- Value of the `${gpu.gpu_utilization || 0}%` stat for the first GPU: a
missing property renders `0` (and so does a present value of `0`, which `||`
also replaces by the literal `0`). -/
def gpuStatValue (g : GpuStat) : ℚ :=
  match g.gpu_utilization with
  | some v => if v = 0 then 0 else v
  | none => 0

/-- `SystemMonitorPopup.updateQuickStats`: the list of (label, numeric value)
stats written into the quick-stats element.  CPU, memory and disk rows are
always rendered; a GPU row is appended only when the `gpus` array is present
and non-empty, using its first entry. -/
def quickStats (d : StatusData) : List (String × ℚ) :=
  [("CPU Usage", quickStatCpu d),
   ("Memory Usage", quickStatRam d),
   ("Disk Usage", quickStatHdd d)] ++
  (match d.gpus with
   | [] => []
   | g :: _ => [("GPU Usage", gpuStatValue g)])

end Popup

namespace MonitorUI

/-- `cpu` block of the `MonitorData` payload. -/
structure CpuData where
  usage : ℚ
  cores : Nat
  frequency : ℚ
deriving DecidableEq, Repr

/-- `memory` block of the `MonitorData` payload. -/
structure MemoryData where
  total : ℚ
  used : ℚ
  available : ℚ
  percent : ℚ
deriving DecidableEq, Repr

/-- One entry of the `drives` array of the `MonitorData` payload. -/
structure DriveInfo where
  path : String
  total_bytes : ℚ
  used_bytes : ℚ
  free_bytes : ℚ
  used_percent : ℚ
  filesystem : String
deriving DecidableEq, Repr

/-- One entry of the `gpus` array of the `MonitorData` payload. -/
structure GPUInfo where
  index : Nat
  name : String
  gpu_utilization : ℚ
  gpu_temperature : ℚ
  vram_total : ℚ
  vram_used : ℚ
  vram_used_percent : ℚ
deriving DecidableEq, Repr

/-- The `MonitorData` payload handed to `MonitorUI.updateMonitorDisplays`.
An absent source key is `none`. -/
structure MonitorData where
  timestamp : ℚ
  cpu : Option CpuData
  memory : Option MemoryData
  gpus : Option (List GPUInfo)
  drives : Option (List DriveInfo)
deriving DecidableEq, Repr

/-- Identifier of a progress bar written by `updateMonitorDisplays`.  The
source uses the string ids `"cpu"`, `"memory"`, `"disk-total"`,
`"disk-" + sanitized path`, `"gpu-" + i`, `"vram-" + i` and `"temp-" + i`;
the constructors below are these ids with their parameters split out. -/
inductive BarId where
  | cpu
  | memory
  | diskTotal
  | disk (path : String)
  | gpu (i : Nat)
  | vram (i : Nat)
  | temp (i : Nat)
deriving DecidableEq, Repr

/-- The source key of the payload a bar id is rendered from. -/
inductive SourceKind where
  | cpu
  | memory
  | disk
  | gpu
deriving DecidableEq, Repr

/-- Which payload key a given bar is derived from. -/
def BarId.source : BarId → SourceKind
  | .cpu => .cpu
  | .memory => .memory
  | .diskTotal => .disk
  | .disk _ => .disk
  | .gpu _ => .gpu
  | .vram _ => .gpu
  | .temp _ => .gpu

/-- One progress-bar write: the bar id together with the `value` and `max`
arguments passed to `createProgressBar`/`updateProgressBar`. -/
structure BarUpdate where
  id : BarId
  value : ℚ
  max : ℚ
deriving DecidableEq, Repr

/-- The disk section of `updateMonitorDisplays`: guarded by
`data.drives && data.drives.length > 0`; emits the aggregate
`disk-total` bar (with a division guarded by `totalSpace > 0`) followed by one
bar per drive. -/
def driveUpdates (drives : List DriveInfo) : List BarUpdate :=
  if drives.length > 0 then
    let totalUsed := (drives.map DriveInfo.used_bytes).sum
    let totalSpace := (drives.map DriveInfo.total_bytes).sum
    let totalPercent := if totalSpace > 0 then totalUsed / totalSpace * 100 else 0
    ⟨.diskTotal, totalPercent, 100⟩ ::
      drives.map (fun d => ⟨.disk d.path, d.used_percent, 100⟩)
  else []

/-- The bars emitted for the GPU at position `i` of the `gpus` array: the
utilization bar always, the VRAM bar only when `vram_total > 0`, the
temperature bar only when `gpu_temperature > 0`. -/
def gpuEntry (i : Nat) (g : GPUInfo) : List BarUpdate :=
  ⟨.gpu i, g.gpu_utilization, 100⟩ ::
    ((if g.vram_total > 0 then [⟨.vram i, g.vram_used_percent, 100⟩] else []) ++
     (if g.gpu_temperature > 0 then [⟨.temp i, g.gpu_temperature, 90⟩] else []))

/-- The GPU section of `updateMonitorDisplays`: guarded by
`data.gpus && data.gpus.length > 0`, then one `gpuEntry` per array position. -/
def gpuUpdates (gs : List GPUInfo) : List BarUpdate :=
  if gs.length > 0 then (gs.enum.flatMap fun p => gpuEntry p.1 p.2) else []

/-- `MonitorUI.updateMonitorDisplays`: the list of progress-bar writes
performed for one payload, in source order.  Each section is guarded on the
presence of its payload key, so an absent key contributes no write at all. -/
def updateMonitorDisplays (data : MonitorData) : List BarUpdate :=
  (match data.cpu with
   | some c => [⟨.cpu, c.usage, 100⟩]
   | none => []) ++
  (match data.memory with
   | some m => [⟨.memory, m.percent, 100⟩]
   | none => []) ++
  (match data.drives with
   | some ds => driveUpdates ds
   | none => []) ++
  (match data.gpus with
   | some gs => gpuUpdates gs
   | none => [])

/-- Whether any bar derived from the given payload key is written for the
given payload. -/
def rendersSource (data : MonitorData) (k : SourceKind) : Bool :=
  (updateMonitorDisplays data).any fun u => u.id.source == k

/-- The fill percentage computed by `MonitorUI.updateProgressBar`:
`max > 0 ? Math.min((value / max) * 100, 100) : 0`. -/
def updateProgressBarPercent (value max : ℚ) : ℚ :=
  if max > 0 then min (value / max * 100) 100 else 0

end MonitorUI

namespace SettingsManager

/-- The settings record of the Chrome-extension `SettingsManager` (the shape
of `this.defaultSettings` / `this.settings`). -/
structure ExtSettings where
  backendUrl : String
  updateInterval : Int
  autoReconnect : Bool
  theme : String
  windowSize : String
  alwaysOnTop : Bool
  enableCPU : Bool
  enableMemory : Bool
  enableDisk : Bool
  enableGPU : Bool
  enableNotifications : Bool
  cpuThreshold : Int
  memoryThreshold : Int
deriving DecidableEq, Repr

/-- `this.defaultSettings` of the extension `SettingsManager`. -/
def defaultSettings : ExtSettings where
  backendUrl := "http://localhost:8888"
  updateInterval := 2000
  autoReconnect := true
  theme := "dark"
  windowSize := "medium"
  alwaysOnTop := false
  enableCPU := true
  enableMemory := true
  enableDisk := true
  enableGPU := true
  enableNotifications := false
  cpuThreshold := 85
  memoryThreshold := 90

/-- The form field values read by `collectFormData` (numeric fields already
passed through `parseInt`). -/
structure FormData where
  backendUrl : String
  updateInterval : Int
  autoReconnect : Bool
  theme : String
  windowSize : String
  alwaysOnTop : Bool
  enableCPU : Bool
  enableMemory : Bool
  enableDisk : Bool
  enableGPU : Bool
  enableNotifications : Bool
  cpuThreshold : Int
  memoryThreshold : Int
deriving DecidableEq, Repr

/-- `SettingsManager.collectFormData`: rebuild `this.settings` from the form
field values, one field per form element. -/
def collectFormData (f : FormData) : ExtSettings where
  backendUrl := f.backendUrl
  updateInterval := f.updateInterval
  autoReconnect := f.autoReconnect
  theme := f.theme
  windowSize := f.windowSize
  alwaysOnTop := f.alwaysOnTop
  enableCPU := f.enableCPU
  enableMemory := f.enableMemory
  enableDisk := f.enableDisk
  enableGPU := f.enableGPU
  enableNotifications := f.enableNotifications
  cpuThreshold := f.cpuThreshold
  memoryThreshold := f.memoryThreshold

/-- The error message shown by the update-interval change handler. -/
def intervalErrorMessage : String := "Update interval must be between 1000-30000ms"

/-- The update-interval validation of `setupFormValidation`: an interval
outside `[1000, 30000]` marks the field and shows `intervalErrorMessage`; the
result is the error shown, `none` when the value passes. -/
def validateUpdateInterval (interval : Int) : Option String :=
  if interval < 1000 ∨ interval > 30000 then some intervalErrorMessage else none

/-- `SettingsManager.saveSettings`: write `this.settings` to
`chrome.storage.sync` unconditionally; on a storage error the previous stored
value survives.  The result is the stored value after the call. -/
def saveSettings (settings : ExtSettings) (storageOk : Bool)
    (prev : Option ExtSettings) : Option ExtSettings :=
  if storageOk then some settings else prev

/-- The save-button handler: `collectFormData()` then `saveSettings()` — no
validation check between the two. -/
def saveSettingsClick (f : FormData) (storageOk : Bool)
    (prev : Option ExtSettings) : Option ExtSettings :=
  saveSettings (collectFormData f) storageOk prev

/-- `Partial` of `ExtSettings`: the shape of a (possibly partial) stored
`settings` value in `chrome.storage.sync`. -/
structure PartialExtSettings where
  backendUrl : Option String
  updateInterval : Option Int
  autoReconnect : Option Bool
  theme : Option String
  windowSize : Option String
  alwaysOnTop : Option Bool
  enableCPU : Option Bool
  enableMemory : Option Bool
  enableDisk : Option Bool
  enableGPU : Option Bool
  enableNotifications : Option Bool
  cpuThreshold : Option Int
  memoryThreshold : Option Int
deriving DecidableEq, Repr

/-- The spread merge `{ ...this.defaultSettings, ...result.settings }`. -/
def mergeExt (d : ExtSettings) (p : PartialExtSettings) : ExtSettings where
  backendUrl := p.backendUrl.getD d.backendUrl
  updateInterval := p.updateInterval.getD d.updateInterval
  autoReconnect := p.autoReconnect.getD d.autoReconnect
  theme := p.theme.getD d.theme
  windowSize := p.windowSize.getD d.windowSize
  alwaysOnTop := p.alwaysOnTop.getD d.alwaysOnTop
  enableCPU := p.enableCPU.getD d.enableCPU
  enableMemory := p.enableMemory.getD d.enableMemory
  enableDisk := p.enableDisk.getD d.enableDisk
  enableGPU := p.enableGPU.getD d.enableGPU
  enableNotifications := p.enableNotifications.getD d.enableNotifications
  cpuThreshold := p.cpuThreshold.getD d.cpuThreshold
  memoryThreshold := p.memoryThreshold.getD d.memoryThreshold

/-- Outcome of `chrome.storage.sync.get('settings')`: the call succeeds with
an optional stored value (absent on a fresh profile), or throws. -/
inductive SyncGetResult where
  | ok (stored : Option PartialExtSettings)
  | thrown
deriving DecidableEq, Repr

/-- `SettingsManager.loadSettings`: on success merge the stored value over the
defaults (`{ ...this.defaultSettings, ...result.settings }`, where spreading
an absent value adds nothing); on a thrown error fall back to a copy of the
defaults. -/
def loadSettings : SyncGetResult → ExtSettings
  | .ok (some p) => mergeExt defaultSettings p
  | .ok none => defaultSettings
  | .thrown => defaultSettings

end SettingsManager

namespace SettingsPanel

/-- `enabledMonitors` block of the panel settings. -/
structure EnabledMonitors where
  cpu : Bool
  memory : Bool
  disk : Bool
  gpu : Bool
  vram : Bool
  temperature : Bool
deriving DecidableEq, Repr

/-- `windowSize` block of the panel settings. -/
structure PanelWindowSize where
  width : Int
  height : Int
deriving DecidableEq, Repr

/-- `colorScheme` block of the panel settings. -/
structure ColorScheme where
  cpu : String
  memory : String
  disk : String
  gpu : String
  vram : String
  temperature : String
  background : String
  text : String
  accent : String
deriving DecidableEq, Repr

/-- `windowPosition` block of the panel settings. -/
structure WindowPosition where
  x : Int
  y : Int
  remember : Bool
deriving DecidableEq, Repr

/-- `windowLayout` block of the panel settings. -/
structure WindowLayout where
  columnsPerRow : Int
  stackVertically : Bool
  groupByType : Bool
  showHeaders : Bool
deriving DecidableEq, Repr

/-- `performanceSettings` block of the panel settings. -/
structure PerformanceSettings where
  enableVSync : Bool
  reduceAnimations : Bool
  backgroundThrottling : Bool
  memoryOptimization : Bool
  maxDataPoints : Int
  enableProfiling : Bool
deriving DecidableEq, Repr

/-- `notifications` block of the panel settings. -/
structure NotificationSettings where
  enabled : Bool
  cpuThreshold : Int
  memoryThreshold : Int
  temperatureThreshold : Int
  soundEnabled : Bool
deriving DecidableEq, Repr

/-- The full settings record of the `SettingsPanel` class (the shape of
`this.defaultSettings`). -/
structure PanelSettings where
  refreshRate : Int
  enabledMonitors : EnabledMonitors
  enabledGPUs : List (Nat × Bool)
  windowSize : PanelWindowSize
  theme : String
  showTooltips : Bool
  showPercentages : Bool
  showValues : Bool
  animationSpeed : Int
  compactMode : Bool
  autoReconnect : Bool
  maxReconnectAttempts : Int
  temperatureUnit : String
  diskDisplayMode : String
  updateAnimation : Bool
  selectedDiskDrives : List String
  colorScheme : ColorScheme
  customColors : Bool
  windowPosition : WindowPosition
  windowLayout : WindowLayout
  performanceSettings : PerformanceSettings
  notifications : NotificationSettings
deriving DecidableEq, Repr

/-- `this.defaultSettings` of the `SettingsPanel` class. -/
def defaultPanelSettings : PanelSettings where
  refreshRate := 1000
  enabledMonitors := ⟨true, true, true, true, true, true⟩
  enabledGPUs := []
  windowSize := ⟨300, 200⟩
  theme := "dark"
  showTooltips := true
  showPercentages := true
  showValues := true
  animationSpeed := 300
  compactMode := false
  autoReconnect := true
  maxReconnectAttempts := 10
  temperatureUnit := "celsius"
  diskDisplayMode := "percentage"
  updateAnimation := true
  selectedDiskDrives := ["C:"]
  colorScheme := ⟨"#2196F3", "#4CAF50", "#FF9800", "#9C27B0", "#E91E63",
                  "#F44336", "#1a1a1a", "#ffffff", "#0078d4"⟩
  customColors := false
  windowPosition := ⟨100, 100, true⟩
  windowLayout := ⟨2, false, true, true⟩
  performanceSettings := ⟨true, false, true, true, 100, false⟩
  notifications := ⟨true, 90, 85, 80, false⟩

/-- A JS object with the keys of `PanelSettings`, each possibly absent: the
result of `loadSettings` (which can miss keys) and the shape of a parsed
stored value. -/
structure PartialPanelSettings where
  refreshRate : Option Int
  enabledMonitors : Option EnabledMonitors
  enabledGPUs : Option (List (Nat × Bool))
  windowSize : Option PanelWindowSize
  theme : Option String
  showTooltips : Option Bool
  showPercentages : Option Bool
  showValues : Option Bool
  animationSpeed : Option Int
  compactMode : Option Bool
  autoReconnect : Option Bool
  maxReconnectAttempts : Option Int
  temperatureUnit : Option String
  diskDisplayMode : Option String
  updateAnimation : Option Bool
  selectedDiskDrives : Option (List String)
  colorScheme : Option ColorScheme
  customColors : Option Bool
  windowPosition : Option WindowPosition
  windowLayout : Option WindowLayout
  performanceSettings : Option PerformanceSettings
  notifications : Option NotificationSettings
deriving DecidableEq, Repr

/-- The object `{}`: every key absent. -/
def emptyPartialPanel : PartialPanelSettings where
  refreshRate := none
  enabledMonitors := none
  enabledGPUs := none
  windowSize := none
  theme := none
  showTooltips := none
  showPercentages := none
  showValues := none
  animationSpeed := none
  compactMode := none
  autoReconnect := none
  maxReconnectAttempts := none
  temperatureUnit := none
  diskDisplayMode := none
  updateAnimation := none
  selectedDiskDrives := none
  colorScheme := none
  customColors := none
  windowPosition := none
  windowLayout := none
  performanceSettings := none
  notifications := none

/-- The spread `{ ...d }` of a possibly-undefined defaults object:
`{ ...undefined }` is `{}`, spreading a real object copies every key. -/
def spreadDefaults : Option PanelSettings → PartialPanelSettings
  | none => emptyPartialPanel
  | some d =>
      { refreshRate := some d.refreshRate
        enabledMonitors := some d.enabledMonitors
        enabledGPUs := some d.enabledGPUs
        windowSize := some d.windowSize
        theme := some d.theme
        showTooltips := some d.showTooltips
        showPercentages := some d.showPercentages
        showValues := some d.showValues
        animationSpeed := some d.animationSpeed
        compactMode := some d.compactMode
        autoReconnect := some d.autoReconnect
        maxReconnectAttempts := some d.maxReconnectAttempts
        temperatureUnit := some d.temperatureUnit
        diskDisplayMode := some d.diskDisplayMode
        updateAnimation := some d.updateAnimation
        selectedDiskDrives := some d.selectedDiskDrives
        colorScheme := some d.colorScheme
        customColors := some d.customColors
        windowPosition := some d.windowPosition
        windowLayout := some d.windowLayout
        performanceSettings := some d.performanceSettings
        notifications := some d.notifications }

/-- The spread merge `{ ...base, ...overlay }` of two possibly-partial
objects: a key present in the overlay wins, otherwise the base key (if any)
survives. -/
def mergePanel (base overlay : PartialPanelSettings) : PartialPanelSettings where
  refreshRate := overlay.refreshRate <|> base.refreshRate
  enabledMonitors := overlay.enabledMonitors <|> base.enabledMonitors
  enabledGPUs := overlay.enabledGPUs <|> base.enabledGPUs
  windowSize := overlay.windowSize <|> base.windowSize
  theme := overlay.theme <|> base.theme
  showTooltips := overlay.showTooltips <|> base.showTooltips
  showPercentages := overlay.showPercentages <|> base.showPercentages
  showValues := overlay.showValues <|> base.showValues
  animationSpeed := overlay.animationSpeed <|> base.animationSpeed
  compactMode := overlay.compactMode <|> base.compactMode
  autoReconnect := overlay.autoReconnect <|> base.autoReconnect
  maxReconnectAttempts := overlay.maxReconnectAttempts <|> base.maxReconnectAttempts
  temperatureUnit := overlay.temperatureUnit <|> base.temperatureUnit
  diskDisplayMode := overlay.diskDisplayMode <|> base.diskDisplayMode
  updateAnimation := overlay.updateAnimation <|> base.updateAnimation
  selectedDiskDrives := overlay.selectedDiskDrives <|> base.selectedDiskDrives
  colorScheme := overlay.colorScheme <|> base.colorScheme
  customColors := overlay.customColors <|> base.customColors
  windowPosition := overlay.windowPosition <|> base.windowPosition
  windowLayout := overlay.windowLayout <|> base.windowLayout
  performanceSettings := overlay.performanceSettings <|> base.performanceSettings
  notifications := overlay.notifications <|> base.notifications

/-- Outcome of reading `localStorage.getItem('systemMonitor.settings')`:
no item stored, an item that parses to a (possibly partial) settings object,
or an item on which `JSON.parse` throws. -/
inductive StoredRead where
  | missing
  | parsed (value : PartialPanelSettings)
  | parseError
deriving DecidableEq, Repr

/-- `SettingsPanel.loadSettings`, parameterised by the value
`this.defaultSettings` holds at call time: a stored item that parses is merged
over `{ ...this.defaultSettings }`; a missing item or a parse error falls back
to `{ ...this.defaultSettings }` alone. -/
def loadSettings (defaults : Option PanelSettings) : StoredRead → PartialPanelSettings
  | .parsed p => mergePanel (spreadDefaults defaults) p
  | .missing => spreadDefaults defaults
  | .parseError => spreadDefaults defaults

/-- The value `this.settings` receives in the `SettingsPanel` constructor:
`this.settings = this.loadSettings()` runs *before* the assignment
`this.defaultSettings = { ... }`, so `loadSettings` sees
`this.defaultSettings === undefined`. -/
def constructSettings (read : StoredRead) : PartialPanelSettings :=
  loadSettings none read

end SettingsPanel

namespace WindowManager

/-- The persisted window state of the `WindowManager` class (the shape of
`this.defaultConfig` / `this.windowState`). -/
structure WindowConfig where
  width : Int
  height : Int
  minWidth : Int
  minHeight : Int
  maxWidth : Int
  maxHeight : Int
  left : Int
  top : Int
  alwaysOnTop : Bool
  monitor : Nat
deriving DecidableEq, Repr

/-- `this.defaultConfig` of the `WindowManager` class. -/
def defaultConfig : WindowConfig where
  width := 300
  height := 200
  minWidth := 200
  minHeight := 150
  maxWidth := 800
  maxHeight := 600
  left := 100
  top := 100
  alwaysOnTop := true
  monitor := 0

/-- `WindowManager.setWindowSize`: clamp the requested width and height into
the configured constraints
(`Math.max(min, Math.min(requested, max))` for each dimension), resize to the
clamped size, record it in `this.windowState`, and persist the state.  The
result is the persisted window state. -/
def setWindowSize (st : WindowConfig) (width height : Int) : WindowConfig :=
  { st with
      width := max st.minWidth (min width st.maxWidth)
      height := max st.minHeight (min height st.maxHeight) }

/-- Window bounds as used by the `WindowValidator`/`WindowUtils` helpers. -/
structure Bounds where
  left : Int
  top : Int
  width : Int
  height : Int
deriving DecidableEq, Repr

/-- The size constraints argument of `WindowValidator.sanitizeBounds`. -/
structure SizeConstraints where
  minWidth : Int
  minHeight : Int
  maxWidth : Int
  maxHeight : Int
deriving DecidableEq, Repr

/-- Bounds of one display. -/
structure DisplayBounds where
  left : Int
  top : Int
  width : Int
  height : Int
deriving DecidableEq, Repr

/-- `WindowUtils.isPointOnScreen` test for a single display. -/
def isPointIn (x y : Int) (d : DisplayBounds) : Bool :=
  x ≥ d.left && x < d.left + d.width && y ≥ d.top && y < d.top + d.height

/-- `WindowUtils.findDisplayAt`: the first display containing the point. -/
def findDisplayAt (x y : Int) (displays : List DisplayBounds) : Option DisplayBounds :=
  displays.find? (isPointIn x y)

/-- `WindowUtils.constrainToDisplay`: move the window so it lies on the
display; width and height are passed through unchanged. -/
def constrainToDisplay (w : Bounds) (d : DisplayBounds) : Bounds where
  left := max d.left (min w.left (d.left + d.width - w.width))
  top := max d.top (min w.top (d.top + d.height - w.height))
  width := w.width
  height := w.height

/-- `WindowValidator.sanitizeBounds`: clamp width and height into the
constraints, then (when any display is known) constrain the position to the
display under the sanitized position, falling back to the first display. -/
def sanitizeBounds (b : Bounds) (c : SizeConstraints)
    (displays : List DisplayBounds) : Bounds :=
  let s1 : Bounds :=
    { b with
        width := max c.minWidth (min b.width c.maxWidth)
        height := max c.minHeight (min b.height c.maxHeight) }
  match displays with
  | [] => s1
  | d0 :: _ => constrainToDisplay s1 ((findDisplayAt s1.left s1.top displays).getD d0)

/-- Outcome of reading `localStorage.getItem(this.storageKey)` in
`loadWindowState`. -/
inductive StateRead where
  | missing
  | parsed (value : WindowConfig)
  | parseError
deriving DecidableEq, Repr

/-- `WindowManager.loadWindowState`: a stored state that parses is merged over
the defaults; a missing item or a parse error yields a copy of the defaults.
(A stored window state is always written whole by `saveWindowState`, so the
merge is modelled with a complete stored record.) -/
def loadWindowState : StateRead → WindowConfig
  | .missing => defaultConfig
  | .parsed v => v
  | .parseError => defaultConfig

end WindowManager

namespace Sampler

/-- Modelled from the spec: the backend Sampler Loop and Snapshot Aggregator
are part of the Python backend, which is not among the client sources here.
Per the spec, the Aggregator "merges results into one immutable `Snapshot`,
tags it with a monotonic sequence number and timestamp"; only the `sequence`
and `taken_at` tags matter for the sequencing claim, so the per-source
payload is left abstract as an opaque payload value. -/
structure Snapshot where
  sequence : Nat
  taken_at : Nat
deriving DecidableEq, Repr

/-- Modelled from the spec: the state the running Sampler Loop carries between
ticks — the next sequence number to assign and the wall clock. -/
structure LoopState where
  nextSeq : Nat
  clock : Nat
deriving DecidableEq, Repr

/-- Modelled from the spec: one tick of the continuously running Sampler Loop
produces a Snapshot tagged with the current sequence number and advances the
counter by one. -/
def tick (s : LoopState) : LoopState × Snapshot :=
  (⟨s.nextSeq + 1, s.clock + 1⟩, ⟨s.nextSeq, s.clock⟩)

/-- Modelled from the spec: the stream of Snapshots produced by `n`
consecutive ticks of the continuously running loop. -/
def run (s : LoopState) : Nat → List Snapshot
  | 0 => []
  | n + 1 =>
      let ts := tick s
      ts.2 :: run ts.1 n

/-- The sequence numbers of the Snapshots of a continuous run. -/
def seqs (s : LoopState) (n : Nat) : List Nat :=
  (run s n).map Snapshot.sequence

end Sampler

/-! Theorems. -/

namespace SystemMonitor

/-- Helper: defaulting an option twice with itself is the same as once. -/
theorem option_getD_getD {α : Type} (o : Option α) (x : α) :
    o.getD (o.getD x) = o.getD x := by
  cases o <;> rfl

/-- C3: the configuration update operation is idempotent under retry — for
every configuration `c` and partial update `p`, merging `p` into `c` and then
merging `p` into the result yields the same configuration content as merging
`p` once, and hence two successful `updateSettings` calls with the same
partial leave the same stored configuration as one. -/
theorem updateSettings_merge_idempotent (c : SystemSettings) (p : PartialSystemSettings) :
    mergeSettings (mergeSettings c p) p = mergeSettings c p ∧
    (updateSettings (updateSettings c p (.ok true)).1 p (.ok true)).1 =
      (updateSettings c p (.ok true)).1 := by
  constructor
  · simp only [mergeSettings, option_getD_getD]
  · simp only [updateSettings, mergeSettings, option_getD_getD]

/-- C4: when the PATCH request fails (non-ok response, a body reporting
`success: false`, or a thrown request), `updateSettings` returns `false` and
the stored configuration is exactly the previous one — no partial
application. -/
theorem updateSettings_failure_preserves_settings (cur : SystemSettings)
    (p : PartialSystemSettings) (outcome : FetchOutcome)
    (h : outcome ≠ FetchOutcome.ok true) :
    updateSettings cur p outcome = (cur, false) := by
  cases outcome with
  | ok s =>
      cases s with
      | false => rfl
      | true => exact absurd rfl h
  | httpError => rfl
  | thrown => rfl

/-- Witness for C4: a non-ok HTTP response leaves the default settings in
place and reports failure. -/
theorem updateSettings_failure_witness :
    updateSettings defaultCurrentSettings
      ⟨some false, none, none, none, none, none, none, none, none⟩
      FetchOutcome.httpError = (defaultCurrentSettings, false) :=
  updateSettings_failure_preserves_settings defaultCurrentSettings
    ⟨some false, none, none, none, none, none, none, none, none⟩
    FetchOutcome.httpError (by decide)

/-- C9: for the `n`-th reconnect attempt (1 ≤ n ≤ 10) the scheduled delay is
`min(1000 · 2^n, 30000)` milliseconds and the counter advances to `n`; once
the counter has reached the maximum of 10, `scheduleReconnect` schedules
nothing and leaves the state unchanged. -/
theorem scheduleReconnect_backoff_bounded (n : Nat) (h1 : 1 ≤ n)
    (h2 : n ≤ maxReconnectAttempts) :
    (scheduleReconnect ⟨n - 1⟩).2 = some (min (1000 * 2 ^ n) 30000) ∧
    (scheduleReconnect ⟨n - 1⟩).1.reconnectAttempts = n ∧
    ∀ s : ReconnectState, maxReconnectAttempts ≤ s.reconnectAttempts →
      scheduleReconnect s = (s, none) := by
  have hlt : ¬(n - 1 ≥ maxReconnectAttempts) := by
    unfold maxReconnectAttempts at h2 ⊢
    omega
  have hn : n - 1 + 1 = n := by omega
  have e : scheduleReconnect ⟨n - 1⟩ =
      (⟨n - 1 + 1⟩, some (min (1000 * 2 ^ (n - 1 + 1)) 30000)) := by
    unfold scheduleReconnect
    rw [if_neg hlt]
  rw [hn] at e
  refine ⟨by rw [e], by rw [e], ?_⟩
  intro s hs
  unfold scheduleReconnect
  rw [if_pos hs]

/-- Witness for C9: the 10th attempt is scheduled with the capped delay of
30000 ms, and with the counter at 10 nothing further is scheduled. -/
theorem scheduleReconnect_backoff_witness :
    (scheduleReconnect ⟨9⟩).2 = some (min (1000 * 2 ^ 10) 30000) ∧
    scheduleReconnect ⟨10⟩ = (⟨10⟩, none) :=
  ⟨(scheduleReconnect_backoff_bounded 10 (by decide) (by decide)).1,
   (scheduleReconnect_backoff_bounded 10 (by decide) (by decide)).2.2 ⟨10⟩ (by decide)⟩

end SystemMonitor

namespace MonitorUI

/-- C10: for every progress-bar update with a non-negative value, the computed
fill percentage lies in `[0, 100]`; when `max ≤ 0` the guarded branch yields
exactly `0` (no division is performed), and when `max > 0` the percentage is
exactly `min((value/max)·100, 100)`. -/
theorem updateProgressBar_percent_safe (value mx : ℚ) (h : 0 ≤ value) :
    updateProgressBarPercent value mx ≤ 100 ∧
    0 ≤ updateProgressBarPercent value mx ∧
    (mx ≤ 0 → updateProgressBarPercent value mx = 0) ∧
    (0 < mx → updateProgressBarPercent value mx = min (value / mx * 100) 100) := by
  unfold updateProgressBarPercent
  by_cases hm : mx > 0
  · rw [if_pos hm]
    refine ⟨min_le_right _ _, le_min (by positivity) (by norm_num), ?_, fun _ => rfl⟩
    intro hle
    exact absurd hm (not_lt.mpr hle)
  · rw [if_neg hm]
    exact ⟨by norm_num, le_refl 0, fun _ => rfl, fun hlt => absurd hlt hm⟩

/-- Witness for C10: a 50/200 update fills at most 100%, at least 0%, and
takes the division branch. -/
theorem updateProgressBar_percent_witness :
    updateProgressBarPercent 50 200 ≤ 100 ∧
    0 ≤ updateProgressBarPercent 50 200 ∧
    ((200 : ℚ) ≤ 0 → updateProgressBarPercent 50 200 = 0) ∧
    ((0 : ℚ) < 200 → updateProgressBarPercent 50 200 = min (50 / 200 * 100) 100) :=
  updateProgressBar_percent_safe 50 200 (by norm_num)

end MonitorUI

namespace WindowManager

/-- Helper: the JS clamp `Math.max(lo, Math.min(x, hi))` lands in `[lo, hi]`
whenever `lo ≤ hi`. -/
theorem clamp_mem (lo hi x : Int) (h : lo ≤ hi) :
    lo ≤ max lo (min x hi) ∧ max lo (min x hi) ≤ hi :=
  ⟨le_max_left _ _, max_le h (min_le_right _ _)⟩

/-- Helper: `sanitizeBounds` sets the width to the clamped width whatever the
display list is (`constrainToDisplay` only moves the window). -/
theorem sanitizeBounds_width (b : Bounds) (c : SizeConstraints)
    (ds : List DisplayBounds) :
    (sanitizeBounds b c ds).width = max c.minWidth (min b.width c.maxWidth) := by
  cases ds <;> rfl

/-- Helper: `sanitizeBounds` sets the height to the clamped height whatever
the display list is. -/
theorem sanitizeBounds_height (b : Bounds) (c : SizeConstraints)
    (ds : List DisplayBounds) :
    (sanitizeBounds b c ds).height = max c.minHeight (min b.height c.maxHeight) := by
  cases ds <;> rfl

/-- C8: assuming the configured constraints are consistent
(`min ≤ max` per dimension), the size applied and persisted by
`setWindowSize`, and the size produced by `sanitizeBounds`, always satisfy
`minWidth ≤ width ≤ maxWidth` and `minHeight ≤ height ≤ maxHeight`. -/
theorem window_size_clamped_invariant (st : WindowConfig) (w h : Int)
    (b : Bounds) (c : SizeConstraints) (ds : List DisplayBounds)
    (h1 : st.minWidth ≤ st.maxWidth) (h2 : st.minHeight ≤ st.maxHeight)
    (h3 : c.minWidth ≤ c.maxWidth) (h4 : c.minHeight ≤ c.maxHeight) :
    (st.minWidth ≤ (setWindowSize st w h).width ∧
     (setWindowSize st w h).width ≤ st.maxWidth ∧
     st.minHeight ≤ (setWindowSize st w h).height ∧
     (setWindowSize st w h).height ≤ st.maxHeight) ∧
    (c.minWidth ≤ (sanitizeBounds b c ds).width ∧
     (sanitizeBounds b c ds).width ≤ c.maxWidth ∧
     c.minHeight ≤ (sanitizeBounds b c ds).height ∧
     (sanitizeBounds b c ds).height ≤ c.maxHeight) := by
  constructor
  · refine ⟨?_, ?_, ?_, ?_⟩
    · exact (clamp_mem _ _ w h1).1
    · exact (clamp_mem _ _ w h1).2
    · exact (clamp_mem _ _ h h2).1
    · exact (clamp_mem _ _ h h2).2
  · rw [sanitizeBounds_width, sanitizeBounds_height]
    exact ⟨(clamp_mem _ _ b.width h3).1, (clamp_mem _ _ b.width h3).2,
           (clamp_mem _ _ b.height h4).1, (clamp_mem _ _ b.height h4).2⟩

/-- Witness for C8: an oversized 1000×50 request against the default
constraints is clamped into range by both paths. -/
theorem window_size_clamped_witness :
    (defaultConfig.minWidth ≤ (setWindowSize defaultConfig 1000 50).width ∧
     (setWindowSize defaultConfig 1000 50).width ≤ defaultConfig.maxWidth ∧
     defaultConfig.minHeight ≤ (setWindowSize defaultConfig 1000 50).height ∧
     (setWindowSize defaultConfig 1000 50).height ≤ defaultConfig.maxHeight) ∧
    ((200 : Int) ≤ (sanitizeBounds ⟨0, 0, 1000, 50⟩ ⟨200, 150, 800, 600⟩ []).width ∧
     (sanitizeBounds ⟨0, 0, 1000, 50⟩ ⟨200, 150, 800, 600⟩ []).width ≤ 800 ∧
     (150 : Int) ≤ (sanitizeBounds ⟨0, 0, 1000, 50⟩ ⟨200, 150, 800, 600⟩ []).height ∧
     (sanitizeBounds ⟨0, 0, 1000, 50⟩ ⟨200, 150, 800, 600⟩ []).height ≤ 600) :=
  window_size_clamped_invariant defaultConfig 1000 50
    ⟨0, 0, 1000, 50⟩ ⟨200, 150, 800, 600⟩ []
    (by decide) (by decide) (by decide) (by decide)

end WindowManager

namespace Sampler

/-- Helper: unfolding one tick of a continuous run. -/
theorem run_succ (s : LoopState) (n : Nat) :
    run s (n + 1) = ⟨s.nextSeq, s.clock⟩ :: run ⟨s.nextSeq + 1, s.clock + 1⟩ n :=
  rfl

/-- Helper: the sequence numbers of a continuous run of `n` ticks are exactly
the `n` consecutive integers starting at the loop's next sequence number. -/
theorem seqs_eq_range' (n : Nat) :
    ∀ s : LoopState, seqs s n = List.range' s.nextSeq n := by
  induction n with
  | zero => intro s; rfl
  | succ m ih =>
      intro s
      show (run s (m + 1)).map Snapshot.sequence = _
      rw [run_succ, List.map_cons,
        show List.range' s.nextSeq (m + 1) =
          s.nextSeq :: List.range' (s.nextSeq + 1) m from rfl]
      exact congrArg (List.cons s.nextSeq) (ih ⟨s.nextSeq + 1, s.clock + 1⟩)

/-- Helper: consecutive integer ranges step by exactly one. -/
theorem chain'_succ_range' (n : Nat) :
    ∀ a : Nat, List.Chain' (fun x y => y = x + 1) (List.range' a n) := by
  induction n with
  | zero => intro a; simp
  | succ m ih =>
      intro a
      cases m with
      | zero => exact List.chain'_singleton a
      | succ k =>
          rw [show List.range' a (k + 2) =
            a :: (a + 1) :: List.range' (a + 2) k from rfl]
          refine List.chain'_cons.mpr ⟨rfl, ?_⟩
          have hk := ih (a + 1)
          rwa [show List.range' (a + 1) (k + 1) =
            (a + 1) :: List.range' (a + 2) k from rfl] at hk

/-- C5 (modelled from the spec; the backend Sampler Loop is not among the
client sources): over any continuous run of the sampler loop, each snapshot's
sequence number is exactly the previous one's plus 1, and the sequence
numbers are strictly increasing — hence unique — for the whole run. -/
theorem snapshot_sequence_consecutive_strict (s : LoopState) (n : Nat) :
    List.Chain' (fun a b => b = a + 1) (seqs s n) ∧
    List.Pairwise (· < ·) (seqs s n) ∧
    (seqs s n).Nodup := by
  rw [seqs_eq_range' n s]
  have hlt : List.Chain' (· < ·) (List.range' s.nextSeq n) :=
    (chain'_succ_range' n s.nextSeq).imp fun a b hab => by omega
  have hp : List.Pairwise (· < ·) (List.range' s.nextSeq n) :=
    List.chain'_iff_pairwise.mp hlt
  exact ⟨chain'_succ_range' n s.nextSeq, hp, hp.nodup⟩

end Sampler

namespace Popup

/-- Counterexample for C1: on a status payload with no `cpu_utilization`,
`ram_used_percent` or `hdd_used_percent` key, the popup's quick stats render
the value `0` for all three rows — and a payload whose CPU reading is an
actual `0` renders the very same value, so absence is conflated with 0. -/
theorem quickStats_zero_fills_missing_reading :
    quickStats ⟨none, none, none, []⟩ =
      [("CPU Usage", 0), ("Memory Usage", 0), ("Disk Usage", 0)] ∧
    quickStatCpu ⟨some 0, none, none, []⟩ = 0 := by
  constructor
  · rfl
  · simp [quickStatCpu, toFixed1]

end Popup

namespace MonitorUI

/-- Helper: every bar written by the disk section derives from the `drives`
key. -/
theorem mem_driveUpdates_source (ds : List DriveInfo) :
    ∀ u ∈ driveUpdates ds, u.id.source = SourceKind.disk := by
  intro u hu
  unfold driveUpdates at hu
  by_cases hd : ds.length > 0
  · rw [if_pos hd] at hu
    rcases List.mem_cons.mp hu with h | h
    · subst h; rfl
    · rcases List.mem_map.mp h with ⟨dr, _, rfl⟩
      rfl
  · rw [if_neg hd] at hu
    exact absurd hu (List.not_mem_nil u)

/-- Helper: every bar written for one GPU entry derives from the `gpus` key. -/
theorem mem_gpuEntry_source (i : Nat) (g : GPUInfo) :
    ∀ u ∈ gpuEntry i g, u.id.source = SourceKind.gpu := by
  intro u hu
  unfold gpuEntry at hu
  rcases List.mem_cons.mp hu with h | h
  · subst h; rfl
  · rcases List.mem_append.mp h with h | h
    · by_cases hv : g.vram_total > 0
      · rw [if_pos hv] at h
        have := List.mem_singleton.mp h
        subst this; rfl
      · rw [if_neg hv] at h
        exact absurd h (List.not_mem_nil u)
    · by_cases ht : g.gpu_temperature > 0
      · rw [if_pos ht] at h
        have := List.mem_singleton.mp h
        subst this; rfl
      · rw [if_neg ht] at h
        exact absurd h (List.not_mem_nil u)

/-- Helper: every bar written by the GPU section derives from the `gpus`
key. -/
theorem mem_gpuUpdates_source (gs : List GPUInfo) :
    ∀ u ∈ gpuUpdates gs, u.id.source = SourceKind.gpu := by
  intro u hu
  unfold gpuUpdates at hu
  by_cases hg : gs.length > 0
  · rw [if_pos hg] at hu
    rcases List.mem_flatMap.mp hu with ⟨p, _, hp⟩
    exact mem_gpuEntry_source p.1 p.2 u hp
  · rw [if_neg hg] at hu
    exact absurd hu (List.not_mem_nil u)

/-- Helper: a bar written for a payload can only derive from a source key
that is present in the payload. -/
theorem mem_updateMonitorDisplays_source (data : MonitorData) (u : BarUpdate)
    (hu : u ∈ updateMonitorDisplays data) :
    (u.id.source = SourceKind.cpu → data.cpu ≠ none) ∧
    (u.id.source = SourceKind.memory → data.memory ≠ none) ∧
    (u.id.source = SourceKind.disk → data.drives ≠ none) ∧
    (u.id.source = SourceKind.gpu → data.gpus ≠ none) := by
  unfold updateMonitorDisplays at hu
  rcases List.mem_append.mp hu with hu3 | hgpu
  · rcases List.mem_append.mp hu3 with hu2 | hdrv
    · rcases List.mem_append.mp hu2 with hcpu | hmem
      · cases hc : data.cpu with
        | none =>
            rw [hc] at hcpu
            exact absurd hcpu (List.not_mem_nil u)
        | some cdat =>
            rw [hc] at hcpu
            have := List.mem_singleton.mp hcpu
            subst this
            exact ⟨fun _ => by simp [hc], fun hk => by simp [BarId.source] at hk,
              fun hk => by simp [BarId.source] at hk, fun hk => by simp [BarId.source] at hk⟩
      · cases hm : data.memory with
        | none =>
            rw [hm] at hmem
            exact absurd hmem (List.not_mem_nil u)
        | some mdat =>
            rw [hm] at hmem
            have := List.mem_singleton.mp hmem
            subst this
            exact ⟨fun hk => by simp [BarId.source] at hk, fun _ => by simp [hm],
              fun hk => by simp [BarId.source] at hk, fun hk => by simp [BarId.source] at hk⟩
    · cases hd : data.drives with
      | none =>
          rw [hd] at hdrv
          exact absurd hdrv (List.not_mem_nil u)
      | some ds =>
          rw [hd] at hdrv
          have hsrc := mem_driveUpdates_source ds u hdrv
          refine ⟨fun hk => ?_, fun hk => ?_, fun _ => by simp [hd], fun hk => ?_⟩
          · rw [hsrc] at hk; exact absurd hk (by decide)
          · rw [hsrc] at hk; exact absurd hk (by decide)
          · rw [hsrc] at hk; exact absurd hk (by decide)
  · cases hg : data.gpus with
    | none =>
        rw [hg] at hgpu
        exact absurd hgpu (List.not_mem_nil u)
    | some gs =>
        rw [hg] at hgpu
        have hsrc := mem_gpuUpdates_source gs u hgpu
        refine ⟨fun hk => ?_, fun hk => ?_, fun hk => ?_, fun _ => by simp [hg]⟩
        · rw [hsrc] at hk; exact absurd hk (by decide)
        · rw [hsrc] at hk; exact absurd hk (by decide)
        · rw [hsrc] at hk; exact absurd hk (by decide)

/-- C1 (amended): the monitor UI treats a source key absent from the payload
as not sampled this tick — no bar derived from that key is written; the
popup's quick stats, however, are rendered through a `|| 0` fallback and do
substitute the value `0` for a missing CPU, memory or disk reading. -/
theorem absent_source_not_rendered (data : MonitorData) (d : Popup.StatusData) :
    (data.cpu = none → rendersSource data SourceKind.cpu = false) ∧
    (data.memory = none → rendersSource data SourceKind.memory = false) ∧
    (data.drives = none → rendersSource data SourceKind.disk = false) ∧
    (data.gpus = none → rendersSource data SourceKind.gpu = false) ∧
    (d.cpu_utilization = none → Popup.quickStatCpu d = 0) ∧
    (d.ram_used_percent = none → Popup.quickStatRam d = 0) ∧
    (d.hdd_used_percent = none → Popup.quickStatHdd d = 0) := by
  refine ⟨?_, ?_, ?_, ?_, ?_, ?_, ?_⟩
  · intro h
    unfold rendersSource
    refine List.any_eq_false.mpr ?_
    intro u hu hbeq
    exact (mem_updateMonitorDisplays_source data u hu).1 (by simpa using hbeq) h
  · intro h
    unfold rendersSource
    refine List.any_eq_false.mpr ?_
    intro u hu hbeq
    exact (mem_updateMonitorDisplays_source data u hu).2.1 (by simpa using hbeq) h
  · intro h
    unfold rendersSource
    refine List.any_eq_false.mpr ?_
    intro u hu hbeq
    exact (mem_updateMonitorDisplays_source data u hu).2.2.1 (by simpa using hbeq) h
  · intro h
    unfold rendersSource
    refine List.any_eq_false.mpr ?_
    intro u hu hbeq
    exact (mem_updateMonitorDisplays_source data u hu).2.2.2 (by simpa using hbeq) h
  · intro h
    simp [Popup.quickStatCpu, h]
  · intro h
    simp [Popup.quickStatRam, h]
  · intro h
    simp [Popup.quickStatHdd, h]

/-- Witness for C1 (amended): a payload with no source keys at all writes no
CPU bar, and the popup renders `0` for its missing CPU reading. -/
theorem absent_source_not_rendered_witness :
    rendersSource ⟨0, none, none, none, none⟩ SourceKind.cpu = false ∧
    Popup.quickStatCpu ⟨none, none, none, []⟩ = 0 :=
  ⟨(absent_source_not_rendered ⟨0, none, none, none, none⟩ ⟨none, none, none, []⟩).1 rfl,
   (absent_source_not_rendered ⟨0, none, none, none, none⟩
      ⟨none, none, none, []⟩).2.2.2.2.1 rfl⟩

end MonitorUI

namespace SettingsManager

/-- Counterexample for C2: a form carrying the out-of-range interval 500 ms
triggers the validation error message, yet clicking save persists the
collected settings — including the 500 ms interval — replacing the stored
configuration. -/
theorem out_of_range_interval_persisted :
    validateUpdateInterval 500 = some intervalErrorMessage ∧
    saveSettingsClick
        ⟨"http://localhost:8888", 500, true, "dark", "medium", false,
         true, true, true, true, false, 85, 90⟩ true (some defaultSettings) =
      some (collectFormData
        ⟨"http://localhost:8888", 500, true, "dark", "medium", false,
         true, true, true, true, false, 85, 90⟩) ∧
    (collectFormData
        ⟨"http://localhost:8888", 500, true, "dark", "medium", false,
         true, true, true, true, false, 85, 90⟩).updateInterval = 500 ∧
    saveSettingsClick
        ⟨"http://localhost:8888", 500, true, "dark", "medium", false,
         true, true, true, true, false, 85, 90⟩ true (some defaultSettings) ≠
      some defaultSettings := by
  refine ⟨rfl, rfl, rfl, ?_⟩
  decide

/-- C2 (amended): an update interval outside `[1000, 30000]` is flagged with
the validation error message, but the save path is not gated on validation:
clicking save persists the collected form data as-is, so the out-of-range
interval is stored. -/
theorem interval_validation_flags_but_save_persists (f : FormData)
    (prev : Option ExtSettings)
    (h : f.updateInterval < 1000 ∨ f.updateInterval > 30000) :
    validateUpdateInterval f.updateInterval = some intervalErrorMessage ∧
    saveSettingsClick f true prev = some (collectFormData f) ∧
    (collectFormData f).updateInterval = f.updateInterval := by
  refine ⟨?_, rfl, rfl⟩
  unfold validateUpdateInterval
  rw [if_pos h]

/-- Witness for C2 (amended): the 500 ms form is flagged and persisted. -/
theorem interval_validation_witness :
    validateUpdateInterval 500 = some intervalErrorMessage ∧
    saveSettingsClick
        ⟨"http://localhost:8888", 500, true, "dark", "medium", false,
         true, true, true, true, false, 85, 90⟩ true none =
      some (collectFormData
        ⟨"http://localhost:8888", 500, true, "dark", "medium", false,
         true, true, true, true, false, 85, 90⟩) ∧
    (collectFormData
        ⟨"http://localhost:8888", 500, true, "dark", "medium", false,
         true, true, true, true, false, 85, 90⟩).updateInterval = 500 :=
  interval_validation_flags_but_save_persists
    ⟨"http://localhost:8888", 500, true, "dark", "medium", false,
     true, true, true, true, false, 85, 90⟩ none (Or.inl (by decide))

end SettingsManager

namespace SettingsPanel

/-- C6 (code bug): in the `SettingsPanel` constructor,
`this.settings = this.loadSettings()` runs before `this.defaultSettings` is
assigned, so `loadSettings` spreads `undefined` and, with nothing stored, the
loaded settings are the empty object `{}` — they miss every key of the
default configuration (for example `refreshRate`, which the defaults set to
1000) instead of equalling the defaults exactly. -/
theorem loadSettings_missing_defaults_yields_empty :
    constructSettings StoredRead.missing = emptyPartialPanel ∧
    (constructSettings StoredRead.missing).refreshRate = none ∧
    (spreadDefaults (some defaultPanelSettings)).refreshRate = some 1000 :=
  ⟨rfl, rfl, rfl⟩

end SettingsPanel

namespace SystemMonitor

/-- Helper: a sequence of own-property mutations never touches the heap. -/
theorem applyMutations_own_heap (ms : List Mutation) :
    ∀ (o : SettingsObj) (h : Heap), (∀ m ∈ ms, m.isOwnProperty = true) →
      (applyMutations (o, h) ms).2 = h := by
  induction ms with
  | nil => intro o h _; rfl
  | cons m rest ih =>
      intro o h hall
      have hm := hall m (List.mem_cons_self m rest)
      have hrest : ∀ m' ∈ rest, m'.isOwnProperty = true :=
        fun m' hm' => hall m' (List.mem_cons_of_mem m hm')
      show (List.foldl applyMutation (applyMutation (o, h) m) rest).2 = h
      cases m
      case pushDrive s => simp [Mutation.isOwnProperty] at hm
      all_goals exact ih _ h hrest

/-- Counterexample for C7: pushing a drive onto the `selected_drives` array
reached through the object returned by the `settings` getter changes the
configuration content the internal object denotes — the shallow copy shares
the array. -/
theorem shallow_copy_shared_array_counterexample :
    content internalObj
        (applyMutations (settingsGetter internalObj, heap0)
          [Mutation.pushDrive "D:"]).2 ≠
      content internalObj heap0 := by
  decide

/-- C7 (amended): the `settings` getter returns a shallow copy — any sequence
of own-property assignments applied to the returned object leaves the heap,
and with it the internally stored configuration content, unchanged; only
in-place mutation of the shared `selected_drives` array escapes this
isolation. -/
theorem settings_getter_own_property_isolation (internal : SettingsObj)
    (h : Heap) (ms : List Mutation)
    (hms : ∀ m ∈ ms, m.isOwnProperty = true) :
    (applyMutations (settingsGetter internal, h) ms).2 = h ∧
    content internal (applyMutations (settingsGetter internal, h) ms).2 =
      content internal h := by
  have hh := applyMutations_own_heap ms (settingsGetter internal) h hms
  exact ⟨hh, by rw [hh]⟩

/-- Witness for C7 (amended): two own-property assignments through the copy
leave the heap and the internal configuration content untouched. -/
theorem settings_getter_isolation_witness :
    (applyMutations (settingsGetter internalObj, heap0)
      [Mutation.setSave true, Mutation.setUpdateInterval 2]).2 = heap0 ∧
    content internalObj
        (applyMutations (settingsGetter internalObj, heap0)
          [Mutation.setSave true, Mutation.setUpdateInterval 2]).2 =
      content internalObj heap0 :=
  settings_getter_own_property_isolation internalObj heap0
    [Mutation.setSave true, Mutation.setUpdateInterval 2] (by decide)

end SystemMonitor

end SystemResourceMonitor
